import Mathlib

/-!
Shallow embedding of the aircraftmon telemetry classifier and poll loop
(`src/aircraftmon.py`, class `PlaneMonitor`).

Numeric telemetry fields are modelled as rationals (`ℚ`); every field of a
snapshot is optional, `none` standing for Python's `None`.  Notification
messages are abstracted to the name of the phase they announce (the message
text only embeds the same data values and plays no role in any property);
the terminal "[INFO] Stopping tracking" announcement of the poll loop is
counted separately in the loop model.
-/

namespace AircraftMon

/-- Static per-monitor configuration (the constructor arguments of
`PlaneMonitor.__init__` that the classifier and loop read). -/
structure Config where
  climb_threshold : ℚ
  descent_threshold : ℚ
  jump_run_altitude : ℚ
  hop_n_pop_altitude : ℚ
  runway_altitude : ℚ
  dz_lat : ℚ
  dz_lon : ℚ
  radius_nm : ℚ
  deriving Repr, DecidableEq

/-- One processed snapshot: the dict returned by
`PlaneMonitor.get_plane_status` (source lines 72–82). -/
structure Data where
  altitude : Option ℚ
  altitude_barometric : Option ℚ
  aircraft_type : Option String
  ground_speed : Option ℚ
  ground_track : Option ℚ
  vertical_speed : Option ℚ
  latitude : Option ℚ
  longitude : Option ℚ
  nav_altitude_mcp : Option ℚ
  deriving Repr, DecidableEq

/-- The mutable per-monitor fields set in `__init__` and touched by
`set_state` / `update_state` / `stop`. -/
structure MonState where
  state : Option String
  state_changed : Bool
  tracking_active : Bool
  descent_counter : Nat
  ascent_counter : Nat
  deriving Repr, DecidableEq

/-- Fresh monitor state as produced by `PlaneMonitor.__init__`:
no phase yet, counters at zero, tracking active. -/
def init_state : MonState :=
  { state := none, state_changed := false, tracking_active := true,
    descent_counter := 0, ascent_counter := 0 }

/-- `PlaneMonitor.set_state` (lines 96–103): assign the new phase and fire
one notification exactly when the phase actually changes.  The returned
list holds the phases announced by this call (`[]` or a singleton). -/
def set_state (s : MonState) (new_state : String) : MonState × List String :=
  if s.state ≠ some new_state then
    ({ s with state := some new_state, state_changed := true }, [new_state])
  else
    (s, [])

/-- Python truthiness of `self.state` (an `Optional[str]`): falsy iff
`None` or the empty string.  Used by the rule-7 guard `if not self.state`. -/
def falsy : Option String → Bool
  | none => true
  | some str => str.isEmpty

/-- The test `ground_speed is not None and ground_speed < 30` of rule 2. -/
def lowGroundSpeed : Option ℚ → Bool
  | some g => decide (g < 30)
  | none => false

/-- Rule 3 (lines 155–159): in the climb band with vertical speed above
300 ft/min, bump `ascent_counter`; announce `climbing` from the third
qualifying reading on. -/
def rule_climb (cfg : Config) (agl vs : Option ℚ) (s : MonState) :
    MonState × List String :=
  match agl with
  | some a =>
    if cfg.climb_threshold ≤ a ∧ a ≤ cfg.jump_run_altitude then
      match vs with
      | some v =>
        if 300 < v then
          let s := { s with ascent_counter := s.ascent_counter + 1 }
          if 3 ≤ s.ascent_counter then set_state s "climbing" else (s, [])
        else (s, [])
      | none => (s, [])
    else (s, [])
  | none => (s, [])

/-- Rule 4 (lines 162–167): within 1000 ft of the jump-run altitude.  The
`else` branch of the source attaches to the ground-track test: a heading in
`[270,330]` with a failing longitude test assigns nothing. -/
def rule_jump_run (cfg : Config) (agl gt lon : Option ℚ) (s : MonState) :
    MonState × List String :=
  match agl with
  | some a =>
    if |a - cfg.jump_run_altitude| < 1000 then
      match gt with
      | some t =>
        if 270 ≤ t ∧ t ≤ 330 then
          match lon with
          | some l => if l < -105.155 then set_state s "jump_run" else (s, [])
          | none => (s, [])
        else set_state s "at_altitude"
      | none => set_state s "at_altitude"
    else (s, [])
  | none => (s, [])

/-- Rule 5 (lines 170–175): within 500 ft of the hop-n-pop altitude;
same shape as rule 4. -/
def rule_hop_n_pop (cfg : Config) (agl gt lon : Option ℚ) (s : MonState) :
    MonState × List String :=
  match agl with
  | some a =>
    if |a - cfg.hop_n_pop_altitude| < 500 then
      match gt with
      | some t =>
        if 270 ≤ t ∧ t ≤ 330 then
          match lon with
          | some l => if l < -105.155 then set_state s "hop_n_pop_run" else (s, [])
          | none => (s, [])
        else set_state s "at_hop_n_pop_altitude"
      | none => set_state s "at_hop_n_pop_altitude"
    else (s, [])
  | none => (s, [])

/-- Rule 6 (lines 178–183): descent confirmation counter; resets to 0 on
every cycle in which the descent condition does not hold (including a
missing vertical speed). -/
def rule_descent (cfg : Config) (vs : Option ℚ) (s : MonState) :
    MonState × List String :=
  match vs with
  | some v =>
    if v < cfg.descent_threshold then
      let s := { s with descent_counter := s.descent_counter + 1 }
      if 3 ≤ s.descent_counter then set_state s "descending" else (s, [])
    else ({ s with descent_counter := 0 }, [])
  | none => ({ s with descent_counter := 0 }, [])

/-- Rule 7 (lines 186–187): fallback to `flying` when `self.state` is
still falsy and an AGL value exists. -/
def rule_flying (agl : Option ℚ) (s : MonState) : MonState × List String :=
  if falsy s.state ∧ agl.isSome then set_state s "flying" else (s, [])

/-- The sequential body of rules 3–7 (lines 154–187): each rule runs on
the state left by the previous one; announcements are concatenated in
rule order. -/
def run_airborne (cfg : Config) (d : Data) (agl : Option ℚ) (s : MonState) :
    MonState × List String :=
  let r3 := rule_climb cfg agl d.vertical_speed s
  let r4 := rule_jump_run cfg agl d.ground_track d.longitude r3.1
  let r5 := rule_hop_n_pop cfg agl d.ground_track d.longitude r4.1
  let r6 := rule_descent cfg d.vertical_speed r5.1
  let r7 := rule_flying agl r6.1
  (r7.1, r3.2 ++ r4.2 ++ r5.2 ++ r6.2 ++ r7.2)

/-- `PlaneMonitor.update_state` (lines 105–187): one classifier
evaluation.  Rules 1 (insufficient data) and 2 (low ground speed) return
early; otherwise rules 3–7 run in sequence. -/
def update_state (cfg : Config) (d : Data) (s0 : MonState) :
    MonState × List String :=
  let s : MonState := { s0 with state_changed := false }
  let agl : Option ℚ := d.altitude.map (fun a => a - cfg.runway_altitude)
  if agl.isNone ∧ d.vertical_speed.isNone ∧ d.ground_speed.isNone then
    if s.state ≠ some "unknown" then set_state s "unknown" else (s, [])
  else if lowGroundSpeed d.ground_speed then
    if s.state ≠ some "landed" then set_state s "landed" else (s, [])
  else
    run_airborne cfg d agl s

/-- `PlaneMonitor.stop` (lines 189–192): only clears the tracking flag. -/
def stop (s : MonState) : MonState :=
  { s with tracking_active := false }

/-- One raw aircraft record of the external ADS-B source (`json_data['ac'][0]`).
Field names follow the keys read by `get_plane_status`; `baro_rate` is the
barometric vertical rate the external source also carries — the code never
reads it, it is present so the spec's claimed fallback can be stated. -/
structure PlaneRecord where
  alt_geom : Option ℚ
  alt_baro : Option ℚ
  t : Option String
  gs : Option ℚ
  track : Option ℚ
  geom_rate : Option ℚ
  baro_rate : Option ℚ
  lat : Option ℚ
  lon : Option ℚ
  nav_altitude_mcp : Option ℚ
  deriving Repr, DecidableEq

/-- The snapshot dict built from the first aircraft record
(`get_plane_status`, lines 72–82). -/
def process_record (p : PlaneRecord) : Data :=
  { altitude := p.alt_geom,
    altitude_barometric := p.alt_baro,
    aircraft_type := p.t,
    ground_speed := p.gs,
    ground_track := p.track,
    vertical_speed := p.geom_rate,
    latitude := p.lat,
    longitude := p.lon,
    nav_altitude_mcp := p.nav_altitude_mcp }

/-- The possible outcomes of one HTTP fetch in `get_plane_status`
(lines 47–94): the exception paths of the `try` block (connection errors,
timeouts, a raised `ClientResponseError` from `raise_for_status`, a payload
that fails JSON decoding) and a decoded payload carrying the `ac` list
(absent or empty `ac` is the empty list). -/
inductive FetchOutcome where
  | networkError
  | timeout
  | httpError (status : Nat)
  | malformedPayload
  | payload (ac : List PlaneRecord)
  deriving Repr, DecidableEq

/-- `PlaneMonitor.get_plane_status` (lines 47–94) as a function of the
fetch outcome: every exception path and the empty-`ac` path return `none`;
a non-empty `ac` list yields the processed first record.  The function is
total — no outcome escapes as an exception. -/
def get_plane_status : FetchOutcome → Option Data
  | .networkError => none
  | .timeout => none
  | .httpError _ => none
  | .malformedPayload => none
  | .payload [] => none
  | .payload (p :: _) => some (process_record p)

/-- The claim's reading of the spec's field mapping for the vertical
speed: geometric rate with a fallback to the barometric rate when absent.
Stated from the spec's words, for comparison with `process_record`. -/
def spec_vertical_speed (p : PlaneRecord) : Option ℚ :=
  match p.geom_rate with
  | some v => some v
  | none => p.baro_rate

/-- The `max_no_data` constant of `PlaneMonitor.track` (line 197). -/
def max_no_data : Nat := 5

/-- Result of running the poll loop against a finite prefix of fetch
outcomes: final monitor state, number of fetches actually performed,
number of terminal "[INFO] Stopping tracking" announcements, the phase
notifications emitted via `set_state`, and whether the loop exited
(`stopped = true`) as opposed to exhausting the supplied outcomes while
still willing to continue. -/
structure TrackResult where
  final : MonState
  fetches : Nat
  terminals : Nat
  events : List String
  stopped : Bool
  deriving Repr, DecidableEq

/-- `PlaneMonitor.track` (lines 194–233) over a list of successive fetch
results (`none` = "no data").  `n` is the running `no_data_count`, reset
to `0` by every successful fetch (line 220) and incremented on a miss
(line 224); on a miss the loop forces the `landed` phase (line 226) and,
once the count reaches `max_no_data`, announces once and breaks
(lines 227–229). -/
def track_run (cfg : Config) : MonState → Nat → List (Option Data) → TrackResult
  | s, _, [] =>
    if s.tracking_active then ⟨s, 0, 0, [], false⟩ else ⟨s, 0, 0, [], true⟩
  | s, n, f :: rest =>
    if s.tracking_active then
      match f with
      | some d =>
        let r := track_run cfg (update_state cfg d s).1 0 rest
        ⟨r.final, r.fetches + 1, r.terminals, (update_state cfg d s).2 ++ r.events, r.stopped⟩
      | none =>
        if max_no_data ≤ n + 1 then
          ⟨(set_state s "landed").1, 1, 1, (set_state s "landed").2, true⟩
        else
          let r := track_run cfg (set_state s "landed").1 (n + 1) rest
          ⟨r.final, r.fetches + 1, r.terminals, (set_state s "landed").2 ++ r.events, r.stopped⟩
    else ⟨s, 0, 0, [], true⟩

/-- Configuration used by the concrete scenarios: the Mile-Hi values from
the repository (`aircraftmon_fastapi.py` / scenario A), with the
`hop_n_pop_altitude` of the `__main__` test harness. -/
def test_config : Config :=
  { climb_threshold := 5300, descent_threshold := -500,
    jump_run_altitude := 12500, hop_n_pop_altitude := 10500,
    runway_altitude := 5000, dz_lat := 40.16638, dz_lon := -105.16178,
    radius_nm := 5 }

/-- A snapshot with every field absent. -/
def empty_data : Data :=
  { altitude := none, altitude_barometric := none, aircraft_type := none,
    ground_speed := none, ground_track := none, vertical_speed := none,
    latitude := none, longitude := none, nav_altitude_mcp := none }

/-- The altitude part of rule 3's guard: `agl` present and within
`[climb_threshold, jump_run_altitude]`. -/
def climb_band (cfg : Config) : Option ℚ → Bool
  | some a => decide (cfg.climb_threshold ≤ a ∧ a ≤ cfg.jump_run_altitude)
  | none => false

/-- The rate part of rule 3's guard: vertical speed present and above
300 ft/min. -/
def fast_climb : Option ℚ → Bool
  | some v => decide (300 < v)
  | none => false

/-- A snapshot on which one `update_state` evaluation increments
`ascent_counter`: rule 3's guard holds and rule 2 does not short-circuit
(rule 1 cannot: the altitude is present). -/
def climb_qualifies (cfg : Config) (d : Data) : Bool :=
  climb_band cfg (d.altitude.map (fun a => a - cfg.runway_altitude)) &&
    fast_climb d.vertical_speed && !(lowGroundSpeed d.ground_speed)

/-- Trace correctness of one evaluation step starting from held phase
`st`: every announced phase differs from the phase held immediately
before it was announced (the held phase updates with each announcement),
and the final phase is the last announcement, or `st` if there was none. -/
def Evolves (st : Option String) (r : MonState × List String) : Prop :=
  List.Chain (fun a b : Option String => a ≠ b) st (r.2.map some) ∧
    r.1.state = (r.2.map some).getLastD st

/-- Scenario A snapshot: `altitude = 11300` (AGL 6300 over the 5000 ft
runway), `vertical_speed = 400`. -/
def data_scenario_A : Data :=
  { empty_data with altitude := some 11300, vertical_speed := some 400 }

/-- Scenario B snapshot: `ground_speed = 15`, `altitude = 11000`,
`vertical_speed = 1000`. -/
def data_scenario_B : Data :=
  { empty_data with
    ground_speed := some 15, altitude := some 11000,
    vertical_speed := some 1000 }

/-- A climb-qualifying snapshot that also reports a ground speed below
30 kts (taxiing GPS reading): rule 2 short-circuits before rule 3. -/
def data_climb_gs10 : Data :=
  { data_scenario_A with ground_speed := some 10 }

/-- A non-qualifying snapshot: in the climb band but with
`vertical_speed = 200 ≤ 300`. -/
def data_slow_climb : Data :=
  { empty_data with altitude := some 11300, vertical_speed := some 200 }

/-- Snapshot at `agl = 12400` (within 1000 ft of the 12500 ft jump-run
altitude), heading 300° (inside the `[270,330]` band), longitude −105.0
(east of the −105.155 gate). -/
def data_band_east : Data :=
  { empty_data with
    altitude := some 17400, ground_track := some 300,
    longitude := some (-105) }

/-- Scenario C snapshot: `agl = 12400`, heading 300°, longitude −105.2
(west of the gate). -/
def data_scenario_C : Data :=
  { data_band_east with longitude := some (-105.2) }

/-- A monitor whose last announced phase is `climbing`. -/
def state_climbing : MonState :=
  { init_state with state := some "climbing" }

/-- A monitor that announced `flying` and holds two qualifying ascent
readings. -/
def state_flying_a2 : MonState :=
  { init_state with state := some "flying", ascent_counter := 2 }

/-- Snapshot at `agl = 11700`: inside the climb band and within 1000 ft
of the jump-run altitude, with `vertical_speed = 400` and no ground
track, so rules 3 and 4 can both fire in one evaluation. -/
def data_two_rules : Data :=
  { empty_data with altitude := some 16700, vertical_speed := some 400 }

/-- A snapshot reporting only an altitude. -/
def data_altitude_only : Data :=
  { empty_data with altitude := some 11000 }

/-- A snapshot reporting only a strong descent (`vertical_speed = −600`). -/
def data_descending : Data :=
  { empty_data with vertical_speed := some (-600) }

/-- A monitor that announced `flying` and holds two descent readings. -/
def state_flying_d2 : MonState :=
  { init_state with state := some "flying", descent_counter := 2 }

/-- An external record with no geometric vertical rate but a barometric
rate of 500 ft/min. -/
def rec_baro_only : PlaneRecord :=
  { alt_geom := some 11000, alt_baro := some 10900, t := some "C208",
    gs := some 120, track := some 300, geom_rate := none,
    baro_rate := some 500, lat := some 40.1, lon := some (-105.2),
    nav_altitude_mcp := none }

/-- An external record with a geometric vertical rate of 256 ft/min. -/
def rec_geom : PlaneRecord :=
  { rec_baro_only with geom_rate := some 256 }

/-! ### Helper lemmas about `set_state` -/

theorem set_state_ascent (s : MonState) (p : String) :
    (set_state s p).1.ascent_counter = s.ascent_counter := by
  unfold set_state; split <;> rfl

theorem set_state_descent (s : MonState) (p : String) :
    (set_state s p).1.descent_counter = s.descent_counter := by
  unfold set_state; split <;> rfl

theorem set_state_tracking (s : MonState) (p : String) :
    (set_state s p).1.tracking_active = s.tracking_active := by
  unfold set_state; split <;> rfl

theorem set_state_state (s : MonState) (p : String) :
    (set_state s p).1.state = some p := by
  unfold set_state; split_ifs with h
  · rfl
  · simpa using not_not.mp h

theorem set_state_self (s : MonState) (p : String) (h : s.state = some p) :
    set_state s p = (s, []) := by
  unfold set_state
  simp [h]

theorem set_state_events (s : MonState) (p : String) :
    (set_state s p).2 = if s.state = some p then [] else [p] := by
  unfold set_state
  rcases eq_or_ne s.state (some p) with h | h <;> simp [h]

theorem set_state_events_mem (s : MonState) (p str : String)
    (h : str ∈ (set_state s p).2) : str = p := by
  rw [set_state_events] at h
  split_ifs at h with h'
  · simp at h
  · simpa using h

/-! ### Per-rule frame lemmas: which counters and phases each rule can touch -/

theorem rule_climb_ascent (cfg : Config) (agl vs : Option ℚ) (s : MonState) :
    (rule_climb cfg agl vs s).1.ascent_counter =
      if climb_band cfg agl && fast_climb vs then s.ascent_counter + 1
      else s.ascent_counter := by
  rcases agl with _ | a <;> rcases vs with _ | v <;>
    simp [rule_climb, climb_band, fast_climb] <;>
    split_ifs <;> simp_all [set_state_ascent]

theorem rule_climb_descent (cfg : Config) (agl vs : Option ℚ) (s : MonState) :
    (rule_climb cfg agl vs s).1.descent_counter = s.descent_counter := by
  rcases agl with _ | a <;> rcases vs with _ | v <;>
    simp [rule_climb] <;> split_ifs <;> simp_all [set_state_descent]

theorem rule_jump_run_ascent (cfg : Config) (agl gt lon : Option ℚ) (s : MonState) :
    (rule_jump_run cfg agl gt lon s).1.ascent_counter = s.ascent_counter := by
  rcases agl with _ | a <;> rcases gt with _ | t <;> rcases lon with _ | l <;>
    simp [rule_jump_run] <;> split_ifs <;> simp_all [set_state_ascent]

theorem rule_jump_run_descent (cfg : Config) (agl gt lon : Option ℚ) (s : MonState) :
    (rule_jump_run cfg agl gt lon s).1.descent_counter = s.descent_counter := by
  rcases agl with _ | a <;> rcases gt with _ | t <;> rcases lon with _ | l <;>
    simp [rule_jump_run] <;> split_ifs <;> simp_all [set_state_descent]

theorem rule_hop_n_pop_ascent (cfg : Config) (agl gt lon : Option ℚ) (s : MonState) :
    (rule_hop_n_pop cfg agl gt lon s).1.ascent_counter = s.ascent_counter := by
  rcases agl with _ | a <;> rcases gt with _ | t <;> rcases lon with _ | l <;>
    simp [rule_hop_n_pop] <;> split_ifs <;> simp_all [set_state_ascent]

theorem rule_hop_n_pop_descent (cfg : Config) (agl gt lon : Option ℚ) (s : MonState) :
    (rule_hop_n_pop cfg agl gt lon s).1.descent_counter = s.descent_counter := by
  rcases agl with _ | a <;> rcases gt with _ | t <;> rcases lon with _ | l <;>
    simp [rule_hop_n_pop] <;> split_ifs <;> simp_all [set_state_descent]

theorem rule_descent_ascent (cfg : Config) (vs : Option ℚ) (s : MonState) :
    (rule_descent cfg vs s).1.ascent_counter = s.ascent_counter := by
  rcases vs with _ | v <;> simp [rule_descent] <;> split_ifs <;>
    simp_all [set_state_ascent]

theorem rule_flying_ascent (agl : Option ℚ) (s : MonState) :
    (rule_flying agl s).1.ascent_counter = s.ascent_counter := by
  simp [rule_flying] <;> split_ifs <;> simp_all [set_state_ascent]

theorem rule_flying_descent (agl : Option ℚ) (s : MonState) :
    (rule_flying agl s).1.descent_counter = s.descent_counter := by
  simp [rule_flying] <;> split_ifs <;> simp_all [set_state_descent]

/-! ### Where each rule's resulting phase can come from -/

theorem rule_climb_state_origin (cfg : Config) (agl vs : Option ℚ)
    (s : MonState) (str : String)
    (h : (rule_climb cfg agl vs s).1.state = some str) :
    s.state = some str ∨ (str = "climbing" ∧ 3 ≤ s.ascent_counter + 1) := by
  rcases agl with _ | a <;> rcases vs with _ | v <;>
    simp only [rule_climb] at h <;> (try split_ifs at h) <;>
    simp_all [set_state_state]

theorem rule_jump_run_state_origin (cfg : Config) (agl gt lon : Option ℚ)
    (s : MonState) (str : String)
    (h : (rule_jump_run cfg agl gt lon s).1.state = some str) :
    s.state = some str ∨ str = "jump_run" ∨ str = "at_altitude" := by
  rcases agl with _ | a <;> rcases gt with _ | t <;> rcases lon with _ | l <;>
    simp only [rule_jump_run] at h <;> (try split_ifs at h) <;>
    simp_all [set_state_state]

theorem rule_hop_n_pop_state_origin (cfg : Config) (agl gt lon : Option ℚ)
    (s : MonState) (str : String)
    (h : (rule_hop_n_pop cfg agl gt lon s).1.state = some str) :
    s.state = some str ∨ str = "hop_n_pop_run" ∨ str = "at_hop_n_pop_altitude" := by
  rcases agl with _ | a <;> rcases gt with _ | t <;> rcases lon with _ | l <;>
    simp only [rule_hop_n_pop] at h <;> (try split_ifs at h) <;>
    simp_all [set_state_state]

theorem rule_descent_state_origin (cfg : Config) (vs : Option ℚ)
    (s : MonState) (str : String)
    (h : (rule_descent cfg vs s).1.state = some str) :
    s.state = some str ∨ str = "descending" := by
  rcases vs with _ | v <;>
    simp only [rule_descent] at h <;> (try split_ifs at h) <;>
    simp_all [set_state_state]

theorem rule_flying_state_origin (agl : Option ℚ) (s : MonState) (str : String)
    (h : (rule_flying agl s).1.state = some str) :
    s.state = some str ∨ str = "flying" := by
  simp only [rule_flying] at h; split_ifs at h <;>
    simp_all [set_state_state]

/-! ### Which phases each rule can announce -/

theorem rule_climb_events_mem (cfg : Config) (agl vs : Option ℚ)
    (s : MonState) (str : String)
    (h : str ∈ (rule_climb cfg agl vs s).2) : str = "climbing" := by
  rcases agl with _ | a <;> rcases vs with _ | v <;>
    simp only [rule_climb] at h <;> (try split_ifs at h) <;>
    first
    | simp at h
    | exact set_state_events_mem _ _ _ h

theorem rule_jump_run_events_mem (cfg : Config) (agl gt lon : Option ℚ)
    (s : MonState) (str : String)
    (h : str ∈ (rule_jump_run cfg agl gt lon s).2) :
    str = "jump_run" ∨ str = "at_altitude" := by
  rcases agl with _ | a <;> rcases gt with _ | t <;> rcases lon with _ | l <;>
    simp only [rule_jump_run] at h <;> (try split_ifs at h) <;>
    first
    | simp at h
    | exact Or.inl (set_state_events_mem _ _ _ h)
    | exact Or.inr (set_state_events_mem _ _ _ h)

theorem rule_hop_n_pop_events_mem (cfg : Config) (agl gt lon : Option ℚ)
    (s : MonState) (str : String)
    (h : str ∈ (rule_hop_n_pop cfg agl gt lon s).2) :
    str = "hop_n_pop_run" ∨ str = "at_hop_n_pop_altitude" := by
  rcases agl with _ | a <;> rcases gt with _ | t <;> rcases lon with _ | l <;>
    simp only [rule_hop_n_pop] at h <;> (try split_ifs at h) <;>
    first
    | simp at h
    | exact Or.inl (set_state_events_mem _ _ _ h)
    | exact Or.inr (set_state_events_mem _ _ _ h)

theorem rule_descent_events_mem (cfg : Config) (vs : Option ℚ)
    (s : MonState) (str : String)
    (h : str ∈ (rule_descent cfg vs s).2) : str = "descending" := by
  rcases vs with _ | v <;>
    simp only [rule_descent] at h <;> (try split_ifs at h) <;>
    first
    | simp at h
    | exact set_state_events_mem _ _ _ h

theorem rule_flying_events_mem (agl : Option ℚ) (s : MonState) (str : String)
    (h : str ∈ (rule_flying agl s).2) : str = "flying" := by
  simp only [rule_flying] at h; split_ifs at h <;>
    first
    | simp at h
    | exact set_state_events_mem _ _ _ h

/-- Exact announcement behaviour of rule 3. -/
theorem rule_climb_events (cfg : Config) (agl vs : Option ℚ) (s : MonState) :
    (rule_climb cfg agl vs s).2 =
      if (climb_band cfg agl && fast_climb vs) = true ∧
          3 ≤ s.ascent_counter + 1 ∧ s.state ≠ some "climbing" then
        ["climbing"]
      else [] := by
  rcases agl with _ | a <;> rcases vs with _ | v <;>
    simp [rule_climb, climb_band, fast_climb, set_state_events] <;>
    split_ifs <;> simp_all [set_state_events]

/-! ### Chains of announcements -/

theorem chain_append_of_chain {α : Type} {R : α → α → Prop} :
    ∀ (l₁ : List α) (a : α) (l₂ : List α),
      List.Chain R a l₁ → List.Chain R (l₁.getLastD a) l₂ →
      List.Chain R a (l₁ ++ l₂)
  | [], _, _, _, h₂ => h₂
  | b :: t, a, l₂, h₁, h₂ => by
    rcases List.chain_cons.mp h₁ with ⟨hab, ht⟩
    exact List.chain_cons.mpr
      ⟨hab, chain_append_of_chain t b l₂ ht (by rwa [List.getLastD_cons] at h₂)⟩

theorem getLastD_append {α : Type} :
    ∀ (l₁ l₂ : List α) (a : α),
      (l₁ ++ l₂).getLastD a = l₂.getLastD (l₁.getLastD a)
  | [], _, _ => rfl
  | b :: t, l₂, a => by
    rw [List.cons_append, List.getLastD_cons, List.getLastD_cons]
    exact getLastD_append t l₂ b

theorem evolves_nil {st : Option String} {s' : MonState} (h : s'.state = st) :
    Evolves st (s', []) :=
  ⟨List.Chain.nil, h⟩

theorem evolves_set {st : Option String} (s : MonState) (p : String)
    (h : s.state = st) : Evolves st (set_state s p) := by
  unfold set_state
  split_ifs with hne
  · exact ⟨List.chain_cons.mpr ⟨by rw [← h]; exact hne, List.Chain.nil⟩, rfl⟩
  · exact evolves_nil (by rw [← h])

theorem evolves_comp {st : Option String} {r₁ r₂ : MonState × List String}
    (h₁ : Evolves st r₁) (h₂ : Evolves r₁.1.state r₂) :
    Evolves st (r₂.1, r₁.2 ++ r₂.2) := by
  obtain ⟨c₁, l₁⟩ := h₁
  obtain ⟨c₂, l₂⟩ := h₂
  refine ⟨?_, ?_⟩
  · rw [List.map_append]
    exact chain_append_of_chain _ _ _ c₁ (by rw [← l₁]; exact c₂)
  · rw [List.map_append, getLastD_append, ← l₁]
    exact l₂

theorem rule_climb_evolves (cfg : Config) (agl vs : Option ℚ) (s : MonState)
    {st : Option String} (h : s.state = st) :
    Evolves st (rule_climb cfg agl vs s) := by
  rcases agl with _ | a <;> rcases vs with _ | v <;>
    simp only [rule_climb] <;> (try split_ifs) <;>
    first
    | exact evolves_nil h
    | exact evolves_set _ _ h

theorem rule_jump_run_evolves (cfg : Config) (agl gt lon : Option ℚ)
    (s : MonState) {st : Option String} (h : s.state = st) :
    Evolves st (rule_jump_run cfg agl gt lon s) := by
  rcases agl with _ | a <;> rcases gt with _ | t <;> rcases lon with _ | l <;>
    simp only [rule_jump_run] <;> (try split_ifs) <;>
    first
    | exact evolves_nil h
    | exact evolves_set _ _ h

theorem rule_hop_n_pop_evolves (cfg : Config) (agl gt lon : Option ℚ)
    (s : MonState) {st : Option String} (h : s.state = st) :
    Evolves st (rule_hop_n_pop cfg agl gt lon s) := by
  rcases agl with _ | a <;> rcases gt with _ | t <;> rcases lon with _ | l <;>
    simp only [rule_hop_n_pop] <;> (try split_ifs) <;>
    first
    | exact evolves_nil h
    | exact evolves_set _ _ h

theorem rule_descent_evolves (cfg : Config) (vs : Option ℚ) (s : MonState)
    {st : Option String} (h : s.state = st) :
    Evolves st (rule_descent cfg vs s) := by
  rcases vs with _ | v <;>
    simp only [rule_descent] <;> (try split_ifs) <;>
    first
    | exact evolves_nil h
    | exact evolves_set _ _ h

theorem rule_flying_evolves (agl : Option ℚ) (s : MonState)
    {st : Option String} (h : s.state = st) :
    Evolves st (rule_flying agl s) := by
  simp only [rule_flying] <;> (try split_ifs) <;>
    first
    | exact evolves_nil h
    | exact evolves_set _ _ h

theorem run_airborne_evolves (cfg : Config) (d : Data) (agl : Option ℚ)
    (s : MonState) {st : Option String} (h : s.state = st) :
    Evolves st (run_airborne cfg d agl s) := by
  have e := evolves_comp
    (evolves_comp
      (evolves_comp
        (evolves_comp (rule_climb_evolves cfg agl d.vertical_speed s h)
          (rule_jump_run_evolves cfg agl d.ground_track d.longitude _ rfl))
        (rule_hop_n_pop_evolves cfg agl d.ground_track d.longitude _ rfl))
      (rule_descent_evolves cfg d.vertical_speed _ rfl))
    (rule_flying_evolves agl _ rfl)
  simpa [run_airborne, List.append_assoc] using e

/-- Trace correctness of a whole evaluation: every announcement differs
from the phase held immediately before it, and the final phase is the
last announcement (or the initial phase if there is none). -/
theorem update_state_evolves (cfg : Config) (d : Data) (s0 : MonState) :
    Evolves s0.state (update_state cfg d s0) := by
  simp only [update_state]
  split_ifs with h1 h2 h3 h4
  · exact evolves_set _ _ rfl
  · exact evolves_nil rfl
  · exact evolves_set _ _ rfl
  · exact evolves_nil rfl
  · exact run_airborne_evolves cfg d _ _ rfl

/-! ### Short-circuit equations for rules 1 and 2 -/

/-- With altitude, vertical speed and ground speed all absent,
`update_state` is exactly the rule-1 branch. -/
theorem update_state_insufficient (cfg : Config) (d : Data) (s : MonState)
    (ha : d.altitude = none) (hv : d.vertical_speed = none)
    (hg : d.ground_speed = none) :
    update_state cfg d s =
      (if s.state ≠ some "unknown" then
        set_state { s with state_changed := false } "unknown"
      else ({ s with state_changed := false }, [])) := by
  simp [update_state, ha, hv, hg]

/-- With a reported ground speed below 30 kts, `update_state` is exactly
the rule-2 branch. -/
theorem update_state_low (cfg : Config) (d : Data) (s : MonState) (g : ℚ)
    (hg : d.ground_speed = some g) (hlt : g < 30) :
    update_state cfg d s =
      (if s.state ≠ some "landed" then
        set_state { s with state_changed := false } "landed"
      else ({ s with state_changed := false }, [])) := by
  simp [update_state, hg, lowGroundSpeed, hlt]

/-- With the short-circuits of rules 1 and 2 excluded, `update_state` is
exactly the rules 3–7 sequence. -/
theorem update_state_airborne (cfg : Config) (d : Data) (s : MonState)
    (hlow : ¬ lowGroundSpeed d.ground_speed = true)
    (hins : ¬ (d.altitude = none ∧ d.vertical_speed = none ∧ d.ground_speed = none)) :
    update_state cfg d s =
      run_airborne cfg d (d.altitude.map (fun a => a - cfg.runway_altitude))
        { s with state_changed := false } := by
  simp only [update_state]
  rw [if_neg, if_neg hlow]
  intro hc
  exact hins ⟨by simpa using hc.1, by simpa using hc.2.1, by simpa using hc.2.2⟩

/-! ### Falsiness of the held phase is only ever destroyed, never created -/

theorem rule_climb_falsy (cfg : Config) (agl vs : Option ℚ) (s : MonState)
    (h : falsy (rule_climb cfg agl vs s).1.state = true) :
    falsy s.state = true := by
  rcases agl with _ | a <;> rcases vs with _ | v <;>
    simp only [rule_climb] at h <;> (try split_ifs at h) <;>
    first
    | exact h
    | (rw [set_state_state] at h; exact absurd h (by decide))

theorem rule_jump_run_falsy (cfg : Config) (agl gt lon : Option ℚ) (s : MonState)
    (h : falsy (rule_jump_run cfg agl gt lon s).1.state = true) :
    falsy s.state = true := by
  rcases agl with _ | a <;> rcases gt with _ | t <;> rcases lon with _ | l <;>
    simp only [rule_jump_run] at h <;> (try split_ifs at h) <;>
    first
    | exact h
    | (rw [set_state_state] at h; exact absurd h (by decide))

theorem rule_hop_n_pop_falsy (cfg : Config) (agl gt lon : Option ℚ) (s : MonState)
    (h : falsy (rule_hop_n_pop cfg agl gt lon s).1.state = true) :
    falsy s.state = true := by
  rcases agl with _ | a <;> rcases gt with _ | t <;> rcases lon with _ | l <;>
    simp only [rule_hop_n_pop] at h <;> (try split_ifs at h) <;>
    first
    | exact h
    | (rw [set_state_state] at h; exact absurd h (by decide))

theorem rule_descent_falsy (cfg : Config) (vs : Option ℚ) (s : MonState)
    (h : falsy (rule_descent cfg vs s).1.state = true) :
    falsy s.state = true := by
  rcases vs with _ | v <;>
    simp only [rule_descent] at h <;> (try split_ifs at h) <;>
    first
    | exact h
    | (rw [set_state_state] at h; exact absurd h (by decide))

/-! ### Rule 7's announcement and its precondition -/

theorem rule_flying_event (agl : Option ℚ) (s : MonState)
    (h : "flying" ∈ (rule_flying agl s).2) :
    falsy s.state = true ∧ agl.isSome = true := by
  simp only [rule_flying] at h
  split_ifs at h with hc
  · exact hc
  · simp at h

theorem rule_flying_state_strong (agl : Option ℚ) (s : MonState) (str : String)
    (h : (rule_flying agl s).1.state = some str) :
    s.state = some str ∨ (str = "flying" ∧ falsy s.state = true) := by
  simp only [rule_flying] at h
  split_ifs at h with hc
  · rw [set_state_state] at h
    exact Or.inr ⟨(Option.some.inj h).symm, hc.1⟩
  · exact Or.inl h

/-! ### Ascent counter behaviour of a whole evaluation -/

/-- Only rule 3 touches `ascent_counter`: it gains one exactly on a
qualifying, non-short-circuited snapshot and is otherwise untouched. -/
theorem update_state_ascent (cfg : Config) (d : Data) (s : MonState) :
    (update_state cfg d s).1.ascent_counter =
      if climb_qualifies cfg d = true then s.ascent_counter + 1
      else s.ascent_counter := by
  by_cases hlow : lowGroundSpeed d.ground_speed = true
  · obtain ⟨g, hg, hlt⟩ : ∃ g, d.ground_speed = some g ∧ g < 30 := by
      rcases hgs : d.ground_speed with _ | g
      · rw [hgs] at hlow; simp [lowGroundSpeed] at hlow
      · rw [hgs] at hlow; simp only [lowGroundSpeed, decide_eq_true_eq] at hlow
        exact ⟨g, rfl, hlow⟩
    rw [update_state_low cfg d s g hg hlt]
    have hq : climb_qualifies cfg d = false := by
      simp [climb_qualifies, hlow]
    rw [hq]
    split_ifs <;> simp_all [set_state_ascent]
  · by_cases hins : d.altitude = none ∧ d.vertical_speed = none ∧ d.ground_speed = none
    · rw [update_state_insufficient cfg d s hins.1 hins.2.1 hins.2.2]
      have hq : climb_qualifies cfg d = false := by
        simp [climb_qualifies, climb_band, hins.1]
      rw [hq]
      split_ifs <;> simp_all [set_state_ascent]
    · rw [update_state_airborne cfg d s hlow hins]
      have hlow' : lowGroundSpeed d.ground_speed = false :=
        Bool.eq_false_iff.mpr hlow
      have hq : climb_qualifies cfg d =
          (climb_band cfg (d.altitude.map (fun a => a - cfg.runway_altitude)) &&
            fast_climb d.vertical_speed) := by
        simp [climb_qualifies, hlow']
      simp only [run_airborne, rule_flying_ascent, rule_descent_ascent,
        rule_hop_n_pop_ascent, rule_jump_run_ascent, rule_climb_ascent, hq]

/-- `ascent_counter` never decreases: there is no reset path. -/
theorem update_state_ascent_mono (cfg : Config) (d : Data) (s : MonState) :
    s.ascent_counter ≤ (update_state cfg d s).1.ascent_counter := by
  rw [update_state_ascent]
  split_ifs <;> omega

/-! ### Where a `climbing` announcement or phase can come from -/

theorem run_airborne_climbing_mem (cfg : Config) (d : Data) (agl : Option ℚ)
    (s : MonState) :
    "climbing" ∈ (run_airborne cfg d agl s).2 ↔
      "climbing" ∈ (rule_climb cfg agl d.vertical_speed s).2 := by
  simp only [run_airborne, List.mem_append]
  constructor
  · rintro ((((h | h) | h) | h) | h)
    · exact h
    · rcases rule_jump_run_events_mem _ _ _ _ _ _ h with h' | h' <;>
        exact absurd h' (by decide)
    · rcases rule_hop_n_pop_events_mem _ _ _ _ _ _ h with h' | h' <;>
        exact absurd h' (by decide)
    · exact absurd (rule_descent_events_mem _ _ _ _ h) (by decide)
    · exact absurd (rule_flying_events_mem _ _ _ h) (by decide)
  · exact fun h => Or.inl (Or.inl (Or.inl (Or.inl h)))

/-- A `climbing` notification fires in an evaluation exactly when the
snapshot qualifies (and is not short-circuited), the incremented counter
reaches 3, and the held phase is not already `climbing`. -/
theorem update_state_climbing_event (cfg : Config) (d : Data) (s : MonState) :
    "climbing" ∈ (update_state cfg d s).2 ↔
      climb_qualifies cfg d = true ∧ 3 ≤ s.ascent_counter + 1 ∧
        s.state ≠ some "climbing" := by
  by_cases hlow : lowGroundSpeed d.ground_speed = true
  · obtain ⟨g, hg, hlt⟩ : ∃ g, d.ground_speed = some g ∧ g < 30 := by
      rcases hgs : d.ground_speed with _ | g
      · rw [hgs] at hlow; simp [lowGroundSpeed] at hlow
      · rw [hgs] at hlow; simp only [lowGroundSpeed, decide_eq_true_eq] at hlow
        exact ⟨g, rfl, hlow⟩
    rw [update_state_low cfg d s g hg hlt]
    have hq : climb_qualifies cfg d = false := by
      simp [climb_qualifies, hlow]
    constructor
    · intro hm
      split_ifs at hm
      · exact absurd (set_state_events_mem _ _ _ hm) (by decide)
      · simp at hm
    · rintro ⟨hq', -, -⟩
      rw [hq] at hq'; cases hq'
  · by_cases hins : d.altitude = none ∧ d.vertical_speed = none ∧ d.ground_speed = none
    · rw [update_state_insufficient cfg d s hins.1 hins.2.1 hins.2.2]
      have hq : climb_qualifies cfg d = false := by
        simp [climb_qualifies, climb_band, hins.1]
      constructor
      · intro hm
        split_ifs at hm
        · exact absurd (set_state_events_mem _ _ _ hm) (by decide)
        · simp at hm
      · rintro ⟨hq', -, -⟩
        rw [hq] at hq'; cases hq'
    · rw [update_state_airborne cfg d s hlow hins]
      have hlow' : lowGroundSpeed d.ground_speed = false :=
        Bool.eq_false_iff.mpr hlow
      have hq : climb_qualifies cfg d =
          (climb_band cfg (d.altitude.map (fun a => a - cfg.runway_altitude)) &&
            fast_climb d.vertical_speed) := by
        simp [climb_qualifies, hlow']
      rw [run_airborne_climbing_mem, rule_climb_events, hq]
      split_ifs with hc
      · simp only [List.mem_cons, List.not_mem_nil, or_false]
        constructor
        · exact fun _ => ⟨hc.1, hc.2.1, hc.2.2⟩
        · exact fun _ => trivial
      · simp only [List.not_mem_nil, false_iff]
        intro hcon
        exact hc ⟨hcon.1, hcon.2.1, hcon.2.2⟩

theorem run_airborne_climbing_state (cfg : Config) (d : Data) (agl : Option ℚ)
    (s : MonState)
    (h : (run_airborne cfg d agl s).1.state = some "climbing") :
    s.state = some "climbing" ∨ 3 ≤ s.ascent_counter + 1 := by
  simp only [run_airborne] at h
  rcases rule_flying_state_origin _ _ _ h with h | h
  · rcases rule_descent_state_origin _ _ _ _ h with h | h
    · rcases rule_hop_n_pop_state_origin _ _ _ _ _ _ h with h | h | h
      · rcases rule_jump_run_state_origin _ _ _ _ _ _ h with h | h | h
        · rcases rule_climb_state_origin _ _ _ _ _ h with h | ⟨-, hb⟩
          · exact Or.inl h
          · exact Or.inr hb
        · exact absurd h (by decide)
        · exact absurd h (by decide)
      · exact absurd h (by decide)
      · exact absurd h (by decide)
    · exact absurd h (by decide)
  · exact absurd h (by decide)

set_option maxHeartbeats 1000000 in
/-- The phase can only end up `climbing` if it already was, or if the
incremented ascent counter reached 3 in this evaluation. -/
theorem update_state_climbing_state (cfg : Config) (d : Data) (s : MonState)
    (h : (update_state cfg d s).1.state = some "climbing") :
    s.state = some "climbing" ∨ 3 ≤ s.ascent_counter + 1 := by
  simp only [update_state] at h
  split_ifs at h with h1 h2 h3 h4
  · rw [set_state_state] at h; exact absurd (Option.some.inj h) (by decide)
  · exact Or.inl h
  · rw [set_state_state] at h; exact absurd (Option.some.inj h) (by decide)
  · exact Or.inl h
  · exact run_airborne_climbing_state cfg d _ { s with state_changed := false } h

/-! ### Where a `flying` announcement or phase can come from -/

/-- A `flying` notification presupposes a falsy held phase (the initial
unset value) and a present altitude. -/
theorem update_state_flying_event (cfg : Config) (d : Data) (s : MonState)
    (h : "flying" ∈ (update_state cfg d s).2) :
    falsy s.state = true ∧ d.altitude.isSome = true := by
  simp only [update_state] at h
  split_ifs at h with h1 h2 h3 h4
  · exact absurd (set_state_events_mem _ _ _ h) (by decide)
  · simp at h
  · exact absurd (set_state_events_mem _ _ _ h) (by decide)
  · simp at h
  · simp only [run_airborne, List.mem_append] at h
    rcases h with ((((h | h) | h) | h) | h)
    · exact absurd (rule_climb_events_mem _ _ _ _ _ h) (by decide)
    · rcases rule_jump_run_events_mem _ _ _ _ _ _ h with h' | h' <;>
        exact absurd h' (by decide)
    · rcases rule_hop_n_pop_events_mem _ _ _ _ _ _ h with h' | h' <;>
        exact absurd h' (by decide)
    · exact absurd (rule_descent_events_mem _ _ _ _ h) (by decide)
    · obtain ⟨hfal, hsome⟩ := rule_flying_event _ _ h
      refine ⟨?_, by simpa using hsome⟩
      exact rule_climb_falsy cfg _ _ { s with state_changed := false }
        (rule_jump_run_falsy _ _ _ _ _
          (rule_hop_n_pop_falsy _ _ _ _ _
            (rule_descent_falsy _ _ _ hfal)))

set_option maxHeartbeats 1000000 in
/-- Once the held phase is non-falsy, an evaluation can only end in
`flying` if it already was `flying`. -/
theorem update_state_flying_state (cfg : Config) (d : Data) (s : MonState)
    (hf : falsy s.state = false)
    (h : (update_state cfg d s).1.state = some "flying") :
    s.state = some "flying" := by
  simp only [update_state] at h
  split_ifs at h with h1 h2 h3 h4
  · rw [set_state_state] at h; exact absurd (Option.some.inj h) (by decide)
  · exact h
  · rw [set_state_state] at h; exact absurd (Option.some.inj h) (by decide)
  · exact h
  · simp only [run_airborne] at h
    rcases rule_flying_state_strong _ _ _ h with h | ⟨-, hfal⟩
    · rcases rule_descent_state_origin _ _ _ _ h with h | h
      · rcases rule_hop_n_pop_state_origin _ _ _ _ _ _ h with h | h | h
        · rcases rule_jump_run_state_origin _ _ _ _ _ _ h with h | h | h
          · rcases rule_climb_state_origin _ _ _ _ _ h with h | ⟨h', -⟩
            · exact h
            · exact absurd h' (by decide)
          · exact absurd h (by decide)
          · exact absurd h (by decide)
        · exact absurd h (by decide)
        · exact absurd h (by decide)
      · exact absurd h (by decide)
    · have hchain : falsy s.state = true :=
        rule_climb_falsy cfg _ _ { s with state_changed := false }
          (rule_jump_run_falsy _ _ _ _ _
            (rule_hop_n_pop_falsy _ _ _ _ _
              (rule_descent_falsy _ _ _ hfal)))
      rw [hf] at hchain; cases hchain

/-! ### Claim theorems -/

/-- C3: whenever `groundSpeed` is present and `< 30`, the evaluation sets
the phase to `landed` and short-circuits — regardless of altitude,
vertical speed, heading or any other field, both counters are left
untouched and the only possible announcement is the `landed` transition
itself (emitted exactly when the phase was not already `landed`). -/
theorem c3_low_ground_speed_landed (cfg : Config) (d : Data) (s : MonState)
    (g : ℚ) (hg : d.ground_speed = some g) (hlt : g < 30) :
    (update_state cfg d s).1.state = some "landed" ∧
    (update_state cfg d s).1.ascent_counter = s.ascent_counter ∧
    (update_state cfg d s).1.descent_counter = s.descent_counter ∧
    (update_state cfg d s).2 =
      (if s.state = some "landed" then [] else ["landed"]) := by
  rw [update_state_low cfg d s g hg hlt]
  by_cases hs : s.state = some "landed"
  · rw [if_neg (not_not_intro hs), if_pos hs]
    exact ⟨hs, rfl, rfl, rfl⟩
  · rw [if_pos hs, if_neg hs]
    exact ⟨set_state_state _ _, set_state_ascent _ _, set_state_descent _ _,
      (set_state_events _ _).trans (if_neg hs)⟩

/-- Witness for C3: scenario B — `groundSpeed = 15`, `altitude = 11000`,
`verticalSpeed = 1000` yields `landed` with one notification. -/
theorem c3_witness :
    (update_state test_config data_scenario_B init_state).1.state = some "landed" ∧
    (update_state test_config data_scenario_B init_state).1.ascent_counter =
      init_state.ascent_counter ∧
    (update_state test_config data_scenario_B init_state).1.descent_counter =
      init_state.descent_counter ∧
    (update_state test_config data_scenario_B init_state).2 =
      (if init_state.state = some "landed" then [] else ["landed"]) :=
  c3_low_ground_speed_landed test_config data_scenario_B init_state 15 rfl
    (by norm_num)

/-- C10: a rule-1 (all of altitude, vertical speed, ground speed absent)
or rule-2 (ground speed `< 30`) short-circuit leaves both debounce
counters untouched; concretely, a two-reading descent streak survives a
`landed` cycle and an `unknown` cycle and completes on the next strong
descent reading. -/
theorem c10_short_circuit_frame (cfg : Config) (d : Data) (s : MonState)
    (h : (d.altitude = none ∧ d.vertical_speed = none ∧ d.ground_speed = none) ∨
      (∃ g, d.ground_speed = some g ∧ g < 30)) :
    ((update_state cfg d s).1.ascent_counter = s.ascent_counter ∧
      (update_state cfg d s).1.descent_counter = s.descent_counter) ∧
    (update_state test_config data_descending
      (update_state test_config empty_data
        (update_state test_config data_scenario_B state_flying_d2).1).1).2 =
      ["descending"] := by
  refine ⟨?_, by decide⟩
  rcases h with ⟨ha, hv, hgn⟩ | ⟨g, hg, hlt⟩
  · rw [update_state_insufficient cfg d s ha hv hgn]
    split_ifs
    · exact ⟨set_state_ascent _ _, set_state_descent _ _⟩
    · exact ⟨rfl, rfl⟩
  · rw [update_state_low cfg d s g hg hlt]
    split_ifs
    · exact ⟨set_state_ascent _ _, set_state_descent _ _⟩
    · exact ⟨rfl, rfl⟩

/-- Witness for C10 at an all-absent snapshot. -/
theorem c10_witness :
    (update_state test_config empty_data state_flying_d2).1.ascent_counter =
      state_flying_d2.ascent_counter ∧
    (update_state test_config empty_data state_flying_d2).1.descent_counter =
      state_flying_d2.descent_counter :=
  (c10_short_circuit_frame test_config empty_data state_flying_d2
    (Or.inl ⟨rfl, rfl, rfl⟩)).1

/-- C9: `stop` only clears the tracking flag — phase, counters and the
change marker are untouched — and a loop whose flag is cleared performs
no further fetch: it exits at the top of the next cycle. -/
theorem c9_cooperative_stop (s : MonState) (cfg : Config) (n : Nat)
    (fs : List (Option Data)) :
    (stop s).tracking_active = false ∧
    (stop s).state = s.state ∧
    (stop s).state_changed = s.state_changed ∧
    (stop s).ascent_counter = s.ascent_counter ∧
    (stop s).descent_counter = s.descent_counter ∧
    track_run cfg (stop s) n fs = ⟨stop s, 0, 0, [], true⟩ := by
  refine ⟨rfl, rfl, rfl, rfl, rfl, ?_⟩
  cases fs <;> simp [track_run, stop]

/-- C8: every soft fetch failure — network error, timeout, HTTP error
status, malformed payload, empty aircraft list — yields the single
"no data" result `none` (the embedding is a total function: no exception
escapes), and on a `none` result the poll cycle continues normally,
counting one more miss, as long as the failure budget is not reached. -/
theorem c8_soft_failures_no_data :
    (get_plane_status FetchOutcome.networkError = none ∧
      get_plane_status FetchOutcome.timeout = none ∧
      (∀ st : Nat, get_plane_status (FetchOutcome.httpError st) = none) ∧
      get_plane_status FetchOutcome.malformedPayload = none ∧
      get_plane_status (FetchOutcome.payload []) = none) ∧
    (∀ (cfg : Config) (s : MonState) (n : Nat) (rest : List (Option Data)),
      s.tracking_active = true → n + 1 < max_no_data →
      track_run cfg s n (none :: rest) =
        ⟨(track_run cfg (set_state s "landed").1 (n + 1) rest).final,
         (track_run cfg (set_state s "landed").1 (n + 1) rest).fetches + 1,
         (track_run cfg (set_state s "landed").1 (n + 1) rest).terminals,
         (set_state s "landed").2 ++
           (track_run cfg (set_state s "landed").1 (n + 1) rest).events,
         (track_run cfg (set_state s "landed").1 (n + 1) rest).stopped⟩) := by
  refine ⟨⟨rfl, rfl, fun st => rfl, rfl, rfl⟩, ?_⟩
  intro cfg s n rest hact hlt
  simp only [track_run, hact, if_true]
  rw [if_neg (by omega : ¬ max_no_data ≤ n + 1)]

/-- Witness for C8: one miss from a fresh monitor continues the loop. -/
theorem c8_witness :
    track_run test_config init_state 0 [none] =
      ⟨(track_run test_config (set_state init_state "landed").1 1 []).final,
       (track_run test_config (set_state init_state "landed").1 1 []).fetches + 1,
       (track_run test_config (set_state init_state "landed").1 1 []).terminals,
       (set_state init_state "landed").2 ++
         (track_run test_config (set_state init_state "landed").1 1 []).events,
       (track_run test_config (set_state init_state "landed").1 1 []).stopped⟩ :=
  c8_soft_failures_no_data.2 test_config init_state 0 [] rfl (by decide)

/-- C7 counterexample: on a record whose geometric rate is absent but
whose barometric rate is 500 ft/min, the snapshot's `vertical_speed` is
absent — the code performs no barometric fallback, so the snapshot
disagrees with the claimed (spec-side) mapping at this input. -/
theorem c7_counterexample :
    get_plane_status (FetchOutcome.payload [rec_baro_only]) =
      some (process_record rec_baro_only) ∧
    rec_baro_only.geom_rate = none ∧
    rec_baro_only.baro_rate = some 500 ∧
    spec_vertical_speed rec_baro_only = some 500 ∧
    (process_record rec_baro_only).vertical_speed = none ∧
    (process_record rec_baro_only).vertical_speed ≠ spec_vertical_speed rec_baro_only := by
  exact ⟨rfl, rfl, rfl, rfl, rfl, by decide⟩

/-- C7 amended: the snapshot of a successful fetch maps the geometric
vertical rate to `vertical_speed` with no fallback (an absent geometric
rate yields an absent `vertical_speed`); when the geometric rate is
present the code agrees with the spec-side mapping. -/
theorem c7_vertical_speed_mapping (p : PlaneRecord) (ps : List PlaneRecord) :
    get_plane_status (FetchOutcome.payload (p :: ps)) = some (process_record p) ∧
    (process_record p).vertical_speed = p.geom_rate ∧
    (∀ v : ℚ, p.geom_rate = some v →
      (process_record p).vertical_speed = spec_vertical_speed p) := by
  refine ⟨rfl, rfl, ?_⟩
  intro v hv
  simp [process_record, spec_vertical_speed, hv]

/-- Witness for C7 (amended) at a record with a geometric rate. -/
theorem c7_witness :
    (process_record rec_geom).vertical_speed = spec_vertical_speed rec_geom :=
  (c7_vertical_speed_mapping rec_geom []).2.2 256 rfl

unseal Rat.sub Rat.ofScientific in
/-- C5 counterexample: at `agl = 12400` (within 1000 ft of the jump-run
altitude), heading 300° inside the band, longitude −105.0 east of the
gate, the evaluation assigns nothing: the phase stays `climbing` and no
notification fires, where the claim predicts `at_altitude`. -/
theorem c5_counterexample :
    data_band_east.altitude = some 17400 ∧
    |(17400:ℚ) - test_config.runway_altitude - test_config.jump_run_altitude| < 1000 ∧
    data_band_east.ground_track = some 300 ∧
    ((270:ℚ) ≤ 300 ∧ (300:ℚ) ≤ 330) ∧
    data_band_east.longitude = some (-105) ∧
    ¬ ((-105:ℚ) < -105.155) ∧
    update_state test_config data_band_east state_climbing =
      ({ state_climbing with state_changed := false }, []) ∧
    (update_state test_config data_band_east state_climbing).1.state ≠
      some "at_altitude" :=
  ⟨rfl, by decide, rfl, by decide, rfl, by decide, by decide, by decide⟩

unseal Rat.sub Rat.ofScientific in
/-- C5 amended: within the jump-run band, rule 4 sets `jump_run` when
the heading is in `[270°,330°]` and the longitude is west of the gate;
it sets `at_altitude` when the ground track is absent or out of band;
and when the heading is in band but the longitude test fails (longitude
absent, or not west of the gate) it assigns nothing — the state is
returned unchanged with no notification.  Scenario C holds end-to-end. -/
theorem c5_rule_jump_run (cfg : Config) (a t l : ℚ) (gt lon : Option ℚ)
    (s : MonState) (hband : |a - cfg.jump_run_altitude| < 1000) :
    ((270 ≤ t ∧ t ≤ 330) → l < -105.155 →
      (rule_jump_run cfg (some a) (some t) (some l) s).1.state = some "jump_run") ∧
    ((¬ ∃ t', gt = some t' ∧ 270 ≤ t' ∧ t' ≤ 330) →
      (rule_jump_run cfg (some a) gt lon s).1.state = some "at_altitude") ∧
    ((270 ≤ t ∧ t ≤ 330) → ¬ l < -105.155 →
      rule_jump_run cfg (some a) (some t) (some l) s = (s, [])) ∧
    ((270 ≤ t ∧ t ≤ 330) →
      rule_jump_run cfg (some a) (some t) none s = (s, [])) ∧
    (update_state test_config data_scenario_C state_climbing).1.state =
      some "jump_run" := by
  refine ⟨?_, ?_, ?_, ?_, by decide⟩
  · intro hb hl
    simp only [rule_jump_run]
    rw [if_pos hband, if_pos hb, if_pos hl]
    exact set_state_state _ _
  · intro hng
    rcases gt with _ | t'
    · simp only [rule_jump_run]
      rw [if_pos hband]
      exact set_state_state _ _
    · simp only [rule_jump_run]
      rw [if_pos hband, if_neg (fun hc => hng ⟨t', rfl, hc⟩)]
      exact set_state_state _ _
  · intro hb hnl
    simp only [rule_jump_run]
    rw [if_pos hband, if_pos hb, if_neg hnl]
  · intro hb
    simp only [rule_jump_run]
    rw [if_pos hband, if_pos hb]

unseal Rat.sub Rat.ofScientific in
/-- Witness for C5 (amended): scenario C numbers at the rule level. -/
theorem c5_witness :
    (rule_jump_run test_config (some 12400) (some 300) (some (-105.2))
      init_state).1.state = some "jump_run" :=
  (c5_rule_jump_run test_config 12400 300 (-105.2) (some 300) (some (-105.2))
      init_state (by decide)).1 (by decide) (by decide)

/-- C6: a `flying` notification can only fire while the held phase is
still falsy (its initial unset value) and an altitude is present; once a
non-falsy phase is held, no evaluation ever moves the phase to `flying`
(it can only still be `flying` if it already was); and every actually
assigned phase string is non-empty, hence non-falsy. -/
theorem c6_flying_only_when_unset :
    (∀ (cfg : Config) (d : Data) (s : MonState),
      "flying" ∈ (update_state cfg d s).2 →
        falsy s.state = true ∧ d.altitude.isSome = true) ∧
    (∀ (cfg : Config) (d : Data) (s : MonState),
      falsy s.state = false →
        (update_state cfg d s).1.state = some "flying" →
          s.state = some "flying") ∧
    (∀ p : String, p ≠ "" → falsy (some p) = false) :=
  ⟨fun cfg d s h => update_state_flying_event cfg d s h,
   fun cfg d s hf h => update_state_flying_state cfg d s hf h,
   fun p hp => by
    simp only [falsy, Bool.eq_false_iff, ne_eq]
    intro he
    exact hp ((String.isEmpty_iff p).mp he)⟩

unseal Rat.sub Rat.ofScientific in
/-- Witness for C6 on a fresh monitor receiving only an altitude. -/
theorem c6_witness :
    falsy init_state.state = true ∧ data_altitude_only.altitude.isSome = true :=
  c6_flying_only_when_unset.1 test_config data_altitude_only init_state
    (by decide)

unseal Rat.sub Rat.ofScientific in
/-- C1: `set_state` notifies exactly when the new phase differs from the
held phase (and at most once); over a whole evaluation every
notification differs from the phase held immediately before it was
announced (`Evolves`), so no notification fires while the phase is
unchanged; and two rules changing the phase in one evaluation each
notify, as at AGL 11700 where rule 3 announces `climbing` and rule 4
then announces `at_altitude`. -/
theorem c1_notification_iff_change :
    (∀ (s : MonState) (p : String),
      ((set_state s p).2 ≠ [] ↔ s.state ≠ some p) ∧
        (set_state s p).2.length ≤ 1) ∧
    (∀ (cfg : Config) (d : Data) (s : MonState),
      Evolves s.state (update_state cfg d s)) ∧
    (update_state test_config data_two_rules state_flying_a2).2 =
      ["climbing", "at_altitude"] := by
  refine ⟨?_, fun cfg d s => update_state_evolves cfg d s, by decide⟩
  intro s p
  rw [set_state_events]
  constructor
  · by_cases h : s.state = some p <;> simp [h]
  · by_cases h : s.state = some p <;> simp [h]

/-- C2: from a fresh miss streak, five consecutive "no data" fetches
perform exactly five fetch attempts, emit exactly one terminal
notification, and end the loop — a sixth fetch never happens, whatever
fetch results would have followed; and a successful fetch continues the
loop with the miss counter reset to the literal 0, whatever it was. -/
theorem c2_failure_budget (cfg : Config) (s : MonState)
    (rest : List (Option Data)) (hact : s.tracking_active = true) :
    (track_run cfg s 0 (List.replicate max_no_data none ++ rest)).fetches = 5 ∧
    (track_run cfg s 0 (List.replicate max_no_data none ++ rest)).terminals = 1 ∧
    (track_run cfg s 0 (List.replicate max_no_data none ++ rest)).stopped = true ∧
    (∀ (n : Nat) (d : Data) (fs : List (Option Data)),
      track_run cfg s n (some d :: fs) =
        ⟨(track_run cfg (update_state cfg d s).1 0 fs).final,
         (track_run cfg (update_state cfg d s).1 0 fs).fetches + 1,
         (track_run cfg (update_state cfg d s).1 0 fs).terminals,
         (update_state cfg d s).2 ++
           (track_run cfg (update_state cfg d s).1 0 fs).events,
         (track_run cfg (update_state cfg d s).1 0 fs).stopped⟩) := by
  have h1 : (set_state s "landed").1.tracking_active = true := by
    rw [set_state_tracking]; exact hact
  have hself : set_state (set_state s "landed").1 "landed" =
      ((set_state s "landed").1, []) :=
    set_state_self _ _ (set_state_state s "landed")
  have key : track_run cfg s 0 (List.replicate max_no_data none ++ rest) =
      ⟨(set_state s "landed").1, 5, 1, (set_state s "landed").2, true⟩ := by
    simp [max_no_data, List.replicate, track_run, hact, h1, hself]
  refine ⟨by rw [key], by rw [key], by rw [key], ?_⟩
  intro n d fs
  simp [track_run, hact]

/-- Witness for C2 on a fresh monitor. -/
theorem c2_witness :
    (track_run test_config init_state 0
      (List.replicate max_no_data none ++ [])).fetches = 5 ∧
    (track_run test_config init_state 0
      (List.replicate max_no_data none ++ [])).terminals = 1 ∧
    (track_run test_config init_state 0
      (List.replicate max_no_data none ++ [])).stopped = true :=
  ⟨(c2_failure_budget test_config init_state [] rfl).1,
   (c2_failure_budget test_config init_state [] rfl).2.1,
   (c2_failure_budget test_config init_state [] rfl).2.2.1⟩

unseal Rat.sub Rat.ofScientific in
/-- C4 counterexample: three consecutive snapshots each satisfying the
claim's qualifying condition (`climbThreshold ≤ agl ≤ jumpRunAltitude`
and `verticalSpeed > 300`) but also reporting `groundSpeed = 10`: the
landed rule short-circuits every evaluation, so after the third snapshot
the phase is not `climbing` and `ascentCounter` was never incremented —
against the claim's "becomes climbing exactly on the 3rd consecutive
qualifying snapshot" and "incremented on each qualifying snapshot". -/
theorem c4_counterexample :
    (test_config.climb_threshold ≤ (11300:ℚ) - test_config.runway_altitude ∧
      (11300:ℚ) - test_config.runway_altitude ≤ test_config.jump_run_altitude ∧
      (300:ℚ) < 400) ∧
    data_climb_gs10.altitude = some 11300 ∧
    data_climb_gs10.vertical_speed = some 400 ∧
    data_climb_gs10.ground_speed = some 10 ∧
    (update_state test_config data_climb_gs10
      (update_state test_config data_climb_gs10
        (update_state test_config data_climb_gs10 init_state).1).1).1.state ≠
      some "climbing" ∧
    (update_state test_config data_climb_gs10
      (update_state test_config data_climb_gs10
        (update_state test_config data_climb_gs10 init_state).1).1).1.ascent_counter
      = 0 :=
  ⟨by decide, rfl, rfl, rfl, by decide, by decide⟩

unseal Rat.sub Rat.ofScientific in
/-- C4 amended: starting from `ascentCounter = 0` with the phase not yet
`climbing`, and provided no snapshot is short-circuited by the landed
rule (ground speed, when present, at least 30), the phase becomes
`climbing` exactly on the 3rd consecutive qualifying snapshot and not
before; the counter gains one per such snapshot, never decreases on any
snapshot, and a 2-qualifying / 1-non-qualifying / 1-qualifying run also
announces `climbing` on its 4th snapshot. -/
theorem c4_climb_confirmation (cfg : Config) (s : MonState) (d1 d2 d3 : Data)
    (h0 : s.ascent_counter = 0) (hs : s.state ≠ some "climbing")
    (h1 : climb_qualifies cfg d1 = true) (h2 : climb_qualifies cfg d2 = true)
    (h3 : climb_qualifies cfg d3 = true) :
    "climbing" ∉ (update_state cfg d1 s).2 ∧
    (update_state cfg d1 s).1.state ≠ some "climbing" ∧
    (update_state cfg d1 s).1.ascent_counter = 1 ∧
    "climbing" ∉ (update_state cfg d2 (update_state cfg d1 s).1).2 ∧
    (update_state cfg d2 (update_state cfg d1 s).1).1.state ≠ some "climbing" ∧
    (update_state cfg d2 (update_state cfg d1 s).1).1.ascent_counter = 2 ∧
    "climbing" ∈ (update_state cfg d3
      (update_state cfg d2 (update_state cfg d1 s).1).1).2 ∧
    (∀ (cfg' : Config) (d' : Data) (s' : MonState),
      s'.ascent_counter ≤ (update_state cfg' d' s').1.ascent_counter) ∧
    (update_state test_config data_scenario_A
      (update_state test_config data_slow_climb
        (update_state test_config data_scenario_A
          (update_state test_config data_scenario_A init_state).1).1).1).2 =
      ["climbing"] := by
  have e1c : (update_state cfg d1 s).1.ascent_counter = 1 := by
    rw [update_state_ascent, if_pos h1, h0]
  have e1m : "climbing" ∉ (update_state cfg d1 s).2 := by
    rw [update_state_climbing_event]
    rintro ⟨-, hc, -⟩
    rw [h0] at hc
    omega
  have e1s : (update_state cfg d1 s).1.state ≠ some "climbing" := by
    intro hst
    rcases update_state_climbing_state cfg d1 s hst with h | h
    · exact hs h
    · rw [h0] at h; omega
  have e2c : (update_state cfg d2 (update_state cfg d1 s).1).1.ascent_counter = 2 := by
    rw [update_state_ascent, if_pos h2, e1c]
  have e2m : "climbing" ∉ (update_state cfg d2 (update_state cfg d1 s).1).2 := by
    rw [update_state_climbing_event]
    rintro ⟨-, hc, -⟩
    rw [e1c] at hc
    omega
  have e2s : (update_state cfg d2 (update_state cfg d1 s).1).1.state ≠
      some "climbing" := by
    intro hst
    rcases update_state_climbing_state _ _ _ hst with h | h
    · exact e1s h
    · rw [e1c] at h; omega
  have e3m : "climbing" ∈ (update_state cfg d3
      (update_state cfg d2 (update_state cfg d1 s).1).1).2 := by
    rw [update_state_climbing_event]
    exact ⟨h3, by rw [e2c], e2s⟩
  exact ⟨e1m, e1s, e1c, e2m, e2s, e2c, e3m,
    fun cfg' d' s' => update_state_ascent_mono cfg' d' s', by decide⟩

unseal Rat.sub Rat.ofScientific in
/-- Witness for C4 (amended): scenario A — three consecutive qualifying
snapshots announce `climbing` on the 3rd. -/
theorem c4_witness :
    "climbing" ∈ (update_state test_config data_scenario_A
      (update_state test_config data_scenario_A
        (update_state test_config data_scenario_A init_state).1).1).2 :=
  (c4_climb_confirmation test_config init_state data_scenario_A data_scenario_A
      data_scenario_A rfl (by decide) (by decide) (by decide) (by decide)).2.2.2.2.2.2.1

end AircraftMon
